import Mathlib

/-!
Shallow embedding of the population-dashboard repository
(`age_app.py`, `age_app_shiny.py`, `pva/app_2.py`).

Tabular data is modelled as lists of row structures; missing cells
(pandas null/NaN) are modelled as `Option`; reactive inputs are plain
function arguments; chart output is an inductive `Figure` value.
-/

namespace PopDash

/-- Fixed region list for the median-age chart (`median_regions` in both
`age_app.py` and `age_app_shiny.py`). -/
def median_regions : List String :=
  ["Asia (UN)", "Europe (UN)", "United States", "Africa (UN)"]

/-- Row of the `median-age` table: entity, year, and the two variant
columns `median_age__sex_all__age_all__variant_estimates` and
`median_age__sex_all__age_all__variant_medium`.  A `none` cell models a
null/NaN entry. -/
structure MedianRow where
  entities : String
  years : Int
  estimate : Option ℚ
  medium : Option ℚ
deriving DecidableEq, Repr

/-- Row of the median table after `get_median_data` added the derived
`median_age_combined` column to its copy. -/
structure CombinedRow where
  entities : String
  years : Int
  estimate : Option ℚ
  medium : Option ℚ
  median_age_combined : Option ℚ
deriving DecidableEq, Repr

/-- One step of the `np.where(estimates.notna(), estimates, medium)`
assignment: the combined cell is the estimate when present, otherwise the
medium-variant cell (which may itself be NaN/`none`). -/
def addCombined (r : MedianRow) : CombinedRow :=
  { entities := r.entities
    years := r.years
    estimate := r.estimate
    medium := r.medium
    median_age_combined := r.estimate.or r.medium }

/-- Embedding of `get_median_data` (age_app.py lines 273-288,
age_app_shiny.py lines 298-313): restrict the median table to
`median_regions`, add the `median_age_combined` column on a copy, keep the
rows of the selected year, and pair the result with the
`median_year > 2023` projection flag. -/
def get_median_data (median_df : List MedianRow) (median_year : Int) :
    List CombinedRow × Bool :=
  let filtered_df := median_df.filter (fun r => median_regions.contains r.entities)
  let with_combined := filtered_df.map addCombined
  let year_data := with_combined.filter (fun r => r.years == median_year)
  (year_data, median_year > 2023)

/-- Embedding of the `projection_info` render (age_app.py lines 199-204):
the header note is "Projektion" for years past 2023, otherwise
"Historische Daten". -/
def projection_info (median_year : Int) : String :=
  if median_year > 2023 then "Projektion" else "Historische Daten"

/-- Row of a per-sex population-by-age table: entity, year, and the
`population__sex_<sex>__age_<group>__variant_estimates` column family,
modelled as an association list from column name to value. -/
structure PopRow where
  entities : String
  years : Int
  pop : List (String × ℚ)
deriving DecidableEq, Repr

/-- Cell access `row[col].iloc[0]` on a single row.  A missing column
would raise a KeyError in pandas; the embedding returns 0 there, which is
unreachable for the well-formed column families the app builds. -/
def getCol (r : PopRow) (col : String) : ℚ :=
  (r.pop.lookup col).getD 0

/-- Embedding of `get_population_data` (age_app.py lines 260-271): filter
each per-sex table on exact equality of entity and year. -/
def get_population_data (male_df female_df : List PopRow)
    (entity : String) (year : Int) : List PopRow × List PopRow :=
  (male_df.filter (fun r => r.entities == entity && r.years == year),
   female_df.filter (fun r => r.entities == entity && r.years == year))

/-- Structural embedding of Python's `str.split` on a single separator
character: the input character list cut at every occurrence of `c`. -/
def splitOnChar (c : Char) : List Char → List (List Char)
  | [] => [[]]
  | x :: xs =>
    match splitOnChar c xs with
    | [] => [[x]]
    | y :: ys => if x = c then [] :: y :: ys else (x :: y) :: ys

/-- Decimal digit value of a character, `none` when it is not a digit. -/
def digitVal (c : Char) : Option ℕ :=
  if 48 ≤ c.toNat ∧ c.toNat ≤ 57 then some (c.toNat - 48) else none

/-- Structural embedding of Python's `int()` on a plain digit string:
`none` where `int()` would raise. -/
def parseNat (cs : List Char) : Option ℕ :=
  if cs.isEmpty then none
  else cs.foldl (fun acc c =>
    match acc, digitVal c with
    | some n, some d => some (n * 10 + d)
    | _, _ => none) (some 0)

/-- Sort key of `sorted(male_age_groups, key=...)` (age_app.py line 151):
`100` for the `100plus` sentinel, otherwise `int(x.split('_')[0])`.
`int()` would raise on a non-numeric head; the embedding returns 0 there,
unreachable for well-formed bracket identifiers. -/
def bracketSortKey (g : String) : ℕ :=
  if g = "100plus" then 100
  else (parseNat ((splitOnChar '_' g.toList).headD [])).getD 0

/-- Display label of a bracket identifier (age_app.py lines 157-161):
`100plus` becomes `100+`, and `lower_upper` becomes `lower-upper`. -/
def ageLabel (g : String) : String :=
  if g = "100plus" then "100+"
  else
    let age_range := splitOnChar '_' g.toList
    String.mk (age_range.headD []) ++ "-" ++
      String.mk ((age_range.drop 1).headD [])

/-- Non-strict ascending comparison on bracket sort keys, the order used
by `sorted(male_age_groups, key=...)`. -/
def bracketLe (a b : String) : Prop :=
  bracketSortKey a ≤ bracketSortKey b

instance : DecidableRel bracketLe := fun a b =>
  inferInstanceAs (Decidable (bracketSortKey a ≤ bracketSortKey b))

instance : IsTotal String bracketLe :=
  ⟨fun a b => Nat.le_total (bracketSortKey a) (bracketSortKey b)⟩

instance : IsTrans String bracketLe :=
  ⟨fun _ _ _ h h' => Nat.le_trans h h'⟩

/-- Bracket display order: ascending by `bracketSortKey`.  Python's
`sorted` is a stable ascending sort; `List.insertionSort` with the
non-strict key comparison is stable as well. -/
def sortAgeGroups (groups : List String) : List String :=
  List.insertionSort bracketLe groups

/-- One bar pair of the age pyramid: display label, signed male value and
unsigned female value (both in millions). -/
structure ChartRecord where
  label : String
  male : ℚ
  female : ℚ
deriving DecidableEq, Repr

/-- Column name `population__sex_male__age_<g>__variant_estimates`. -/
def maleCol (g : String) : String :=
  "population__sex_male__age_" ++ g ++ "__variant_estimates"

/-- Column name `population__sex_female__age_<g>__variant_estimates`. -/
def femaleCol (g : String) : String :=
  "population__sex_female__age_" ++ g ++ "__variant_estimates"

/-- One loop iteration of `age_distribution_plot` (age_app.py lines
153-168): the bracket's display label, the male population in millions
negated for the left side of the pyramid, and the female population in
millions kept unsigned. -/
def pyramidRecord (male_row female_row : PopRow) (g : String) :
    ChartRecord :=
  { label := ageLabel g
    male := -(getCol male_row (maleCol g) / 1000000)
    female := getCol female_row (femaleCol g) / 1000000 }

/-- Bar construction of `age_distribution_plot`: one record per bracket
in display order. -/
def buildPyramidRecords (groups : List String)
    (male_row female_row : PopRow) : List ChartRecord :=
  (sortAgeGroups groups).map (pyramidRecord male_row female_row)

/-- One loop iteration of `age_distribution_render` (age_app_shiny.py
lines 138-155): same label mapping, male value
`-male_data[col_male].iloc[0] / 1_000_000`, female value unsigned. -/
def shinyPyramidRecord (male_row female_row : PopRow) (g : String) :
    ChartRecord :=
  { label := ageLabel g
    male := -getCol male_row (maleCol g) / 1000000
    female := getCol female_row (femaleCol g) / 1000000 }

/-- Bar construction of the shiny render (age_app_shiny.py lines
138-156): one record per bracket, iterating `male_age_groups` in the raw
dataframe column order — no sort is applied on this path. -/
def shinyBuildPyramidRecords (groups : List String)
    (male_row female_row : PopRow) : List ChartRecord :=
  groups.map (shinyPyramidRecord male_row female_row)

/-- Chart output of a render: either the explicit "no data" placeholder
figure or a pyramid of bar records. -/
inductive Figure where
  | noData
  | pyramid (records : List ChartRecord)
deriving DecidableEq, Repr

/-- Embedding of the `age_distribution_plot` render (age_app.py lines
131-191): when either filtered table is empty the placeholder figure is
returned; otherwise the pyramid is built from the first matching row of
each table (`.iloc[0]`). -/
def age_distribution_plot (groups : List String)
    (male_data female_data : List PopRow) : Figure :=
  match male_data, female_data with
  | [], _ => Figure.noData
  | _, [] => Figure.noData
  | m :: _, f :: _ => Figure.pyramid (buildPyramidRecords groups m f)

/-- X-axis tick relabeling `str(abs(int(x)))` (age_app.py line 184) at an
integer tick position. -/
def tickLabel (x : Int) : String :=
  toString x.natAbs

/-- Animation state of one play loop: the `animating_*` reactive flag
(`true` is Playing, `false` is Idle), the slider position it drives, and
the play button label. -/
structure AnimState where
  playing : Bool
  pos : Int
  label : String
deriving DecidableEq, Repr

/-- One execution of an animation effect body (age_app.py lines 311-323
and 335-348) with upper bound `B` and tick delay `delay` (in seconds):
while Playing, a position below the bound advances by one and a next tick
is scheduled after `delay`; at or above the bound the flag flips to Idle,
the button label resets to "Play", nothing is scheduled, and the position
does not move.  While Idle the body does nothing. -/
def animTick (B : Int) (delay : ℚ) (s : AnimState) : AnimState × Option ℚ :=
  if s.playing then
    if s.pos < B then
      ({ s with pos := s.pos + 1 }, some delay)
    else
      ({ s with playing := false, label := "Play" }, none)
  else (s, none)

/-- Loop `_animate_age_distribution`: bound is the maximum available year
of the data, delay is 0.05 seconds. -/
def animateAgeDistribution (max_year : Int) (s : AnimState) :
    AnimState × Option ℚ :=
  animTick max_year (1 / 20) s

/-- Loop `_animate_median_age`: bound is the fixed slider maximum 2100,
delay is 0.25 seconds. -/
def animateMedianAge (s : AnimState) : AnimState × Option ℚ :=
  animTick 2100 (1 / 4) s

/-- Run `n` consecutive ticks of a loop, discarding the scheduling
component. -/
def runTicks (B : Int) (delay : ℚ) : ℕ → AnimState → AnimState
  | 0, s => s
  | n + 1, s => runTicks B delay n (animTick B delay s).1

/-- Dataset Store: the three tables loaded once at startup
(`male_popl_by_age_df`, `female_popl_by_age_df`, `median_df`). -/
structure Store where
  male_popl_by_age_df : List PopRow
  female_popl_by_age_df : List PopRow
  median_df : List MedianRow
deriving DecidableEq, Repr

/-- Store-threaded embedding of `get_population_data`: the body only
reads the two population tables through boolean-mask filters, so the
store it hands back is the store it was given. -/
def get_population_data_st (s : Store) (entity : String) (year : Int) :
    (List PopRow × List PopRow) × Store :=
  let male_data := s.male_popl_by_age_df.filter
    (fun r => r.entities == entity && r.years == year)
  let female_data := s.female_popl_by_age_df.filter
    (fun r => r.entities == entity && r.years == year)
  ((male_data, female_data), s)

/-- Store-threaded embedding of `get_median_data`: the column assignment
`filtered_df["median_age_combined"] = ...` targets the `.copy()` made on
the first line of the body, never `median_df` itself, so the store it
hands back is the store it was given. -/
def get_median_data_st (s : Store) (median_year : Int) :
    (List CombinedRow × Bool) × Store :=
  let filtered_df := s.median_df.filter
    (fun r => median_regions.contains r.entities)
  let with_combined := filtered_df.map addCombined
  let year_data := with_combined.filter (fun r => r.years == median_year)
  ((year_data, median_year > 2023), s)

/-- Store-threaded render pipeline of the age pyramid: filter then plot,
with the store passed through untouched. -/
def age_distribution_render_st (s : Store) (groups : List String)
    (entity : String) (year : Int) : Figure × Store :=
  let data := get_population_data_st s entity year
  (age_distribution_plot groups data.1.1 data.1.2, data.2)

end PopDash

namespace Pva

/-- Row of the prepared `df_states` table of `pva/app_2.py`: state name,
mapped region name and the percentage change column
`change_2010_2019`. -/
structure StateRow where
  name : String
  region_name : String
  change_2010_2019 : ℚ
deriving DecidableEq, Repr

/-- Descending comparison on the growth column, non-strict so that the
stable sort keeps earlier rows first among ties, matching pandas
`nlargest` with its default `keep` behavior. -/
def descGrowth (a b : StateRow) : Prop :=
  b.change_2010_2019 ≤ a.change_2010_2019

instance : DecidableRel descGrowth := fun a b =>
  inferInstanceAs (Decidable (b.change_2010_2019 ≤ a.change_2010_2019))

instance : IsTotal StateRow descGrowth :=
  ⟨fun a b => le_total b.change_2010_2019 a.change_2010_2019⟩

instance : IsTrans StateRow descGrowth :=
  ⟨fun _ _ _ h h' => le_trans h' h⟩

/-- Embedding of pandas `nlargest(n, 'change_2010_2019')`: the first `n`
rows of the stable descending sort on the growth column. -/
def nlargestGrowth (n : ℕ) (l : List StateRow) : List StateRow :=
  (List.insertionSort descGrowth l).take n

/-- Region filter shared by the widget and the value box
(`df_states[df_states['REGION_NAME'].isin(input.regions())]`). -/
def filterRegions (df_states : List StateRow) (regions : List String) :
    List StateRow :=
  df_states.filter (fun r => regions.contains r.region_name)

/-- Row selection of `population_widget` (pva/app_2.py lines 85-90):
filter by selected regions, then keep the `top_n` largest rows by
growth. -/
def population_widget_rows (df_states : List StateRow)
    (regions : List String) (top_n : ℕ) : List StateRow :=
  nlargestGrowth top_n (filterRegions df_states regions)

/-- Mean of a numeric pandas column.  pandas returns NaN on an empty
series; `none` models that NaN. -/
def pandasMean (xs : List ℚ) : Option ℚ :=
  if xs.isEmpty then none else some (xs.sum / xs.length)

/-- Rendering of one value at Python `.1f` precision (rounding mode at
half-way points is immaterial to the claims considered here). -/
def formatFixed1 (v : ℚ) : String :=
  let n : Int := round (v * 10)
  toString (n / 10) ++ "." ++ toString (n % 10).natAbs

/-- Embedding of the f-string `f"<avg>.1f<percent>"`: a NaN mean prints
as the literal text `nan%`. -/
def formatPct (m : Option ℚ) : String :=
  match m with
  | none => "nan%"
  | some v => formatFixed1 v ++ "%"

/-- Embedding of the `avg_growth` render (pva/app_2.py lines 178-194):
filter by selected regions, take the mean of the growth column and format
it with a percent sign.  There is no empty-subset check. -/
def avg_growth (df_states : List StateRow) (regions : List String) :
    String :=
  let filtered_df := filterRegions df_states regions
  formatPct (pandasMean (filtered_df.map (·.change_2010_2019)))

end Pva

namespace PopDash

/-- Sample median-age row with a present estimate cell. -/
def demoMedianRow : MedianRow :=
  { entities := "Asia (UN)", years := 1950, estimate := some 22,
    medium := none }

/-- Sample one-row median-age table. -/
def demoMedianDf : List MedianRow := [demoMedianRow]

/-- Sample male population row of the World in 1950. -/
def demoMaleRow : PopRow :=
  { entities := "World", years := 1950,
    pop := [(maleCol "0_4", 337000000)] }

/-- Sample female population row of the World in 1950. -/
def demoFemaleRow : PopRow :=
  { entities := "World", years := 1950,
    pop := [(femaleCol "0_4", 321000000)] }

/-- Animation state used to instantiate the tick theorem. -/
def demoAnim : AnimState :=
  { playing := true, pos := 2020, label := "Pause" }

/-- Animation state right after Play is pressed at the 1950 default. -/
def ageAnimStart : AnimState :=
  { playing := true, pos := 1950, label := "Pause" }

end PopDash

namespace Pva

/-- Sample state row, region West. -/
def demoUtah : StateRow :=
  { name := "Utah", region_name := "West", change_2010_2019 := 16 }

/-- Sample state row, region South. -/
def demoTexas : StateRow :=
  { name := "Texas", region_name := "South", change_2010_2019 := 15 }

/-- Sample state row, region Midwest. -/
def demoIllinois : StateRow :=
  { name := "Illinois", region_name := "Midwest",
    change_2010_2019 := -1 }

/-- Sample prepared state table. -/
def demoStates : List StateRow := [demoUtah, demoTexas, demoIllinois]

/-- Region selection with all demo regions checked. -/
def demoRegions : List String := ["West", "South", "Midwest"]

end Pva

namespace PopDash

/-- C1: every row of the median-age data produced by `get_median_data`
lies in the four fixed regions and carries a `median_age_combined` cell
that equals the estimates-variant cell when that cell is present and the
medium-variant cell otherwise; the estimate takes priority and no other
column feeds the combined value. -/
theorem c1_median_age_combined_priority (df : List MedianRow) (y : Int)
    (row : CombinedRow) (h : row ∈ (get_median_data df y).1) :
    row.median_age_combined = row.estimate.or row.medium ∧
    (row.estimate.isSome = true → row.median_age_combined = row.estimate) ∧
    (row.estimate = none → row.median_age_combined = row.medium) ∧
    row.entities ∈ median_regions ∧
    row.years = y := by
  unfold get_median_data at h
  simp only [List.mem_filter, List.mem_map, beq_iff_eq] at h
  obtain ⟨⟨r0, hr0, rfl⟩, hy⟩ := h
  obtain ⟨_, hreg⟩ := hr0
  refine ⟨rfl, ?_, ?_, ?_, hy⟩
  · intro hsome
    cases he : r0.estimate with
    | none =>
      rw [show (addCombined r0).estimate = r0.estimate from rfl, he] at hsome
      exact absurd hsome (by simp)
    | some v =>
      show r0.estimate.or r0.medium = r0.estimate
      rw [he]
      rfl
  · intro hnone
    show r0.estimate.or r0.medium = r0.medium
    rw [show (addCombined r0).estimate = r0.estimate from rfl] at hnone
    rw [hnone]
    cases r0.medium with
    | none => rfl
    | some v => rfl
  · simpa using hreg

/-- C1 witness: the theorem instantiated at the sample table. -/
theorem c1_witness :
    (addCombined demoMedianRow).median_age_combined =
      (addCombined demoMedianRow).estimate.or (addCombined demoMedianRow).medium ∧
    ((addCombined demoMedianRow).estimate.isSome = true →
      (addCombined demoMedianRow).median_age_combined =
        (addCombined demoMedianRow).estimate) ∧
    ((addCombined demoMedianRow).estimate = none →
      (addCombined demoMedianRow).median_age_combined =
        (addCombined demoMedianRow).medium) ∧
    (addCombined demoMedianRow).entities ∈ median_regions ∧
    (addCombined demoMedianRow).years = 1950 :=
  c1_median_age_combined_priority demoMedianDf 1950
    (addCombined demoMedianRow) (by decide)

/-- C2: `get_population_data` returns exactly the rows of each table
whose entity and year both equal the selection; a pair absent from a
table yields the empty result, and the render then returns the explicit
"no data" placeholder figure. -/
theorem c2_population_filter_exact_and_placeholder
    (male_df female_df : List PopRow) (groups : List String)
    (e : String) (y : Int) (r : PopRow) :
    (r ∈ (get_population_data male_df female_df e y).1 ↔
      r ∈ male_df ∧ r.entities = e ∧ r.years = y) ∧
    (r ∈ (get_population_data male_df female_df e y).2 ↔
      r ∈ female_df ∧ r.entities = e ∧ r.years = y) ∧
    (male_df.all (fun m => !(m.entities == e && m.years == y)) = true →
      (get_population_data male_df female_df e y).1 = []) ∧
    (female_df.all (fun m => !(m.entities == e && m.years == y)) = true →
      (get_population_data male_df female_df e y).2 = []) ∧
    ((get_population_data male_df female_df e y).1 = [] ∨
      (get_population_data male_df female_df e y).2 = [] →
      age_distribution_plot groups (get_population_data male_df female_df e y).1
        (get_population_data male_df female_df e y).2 = Figure.noData) := by
  refine ⟨?_, ?_, ?_, ?_, ?_⟩
  · simp [get_population_data, List.mem_filter, Bool.and_eq_true,
      beq_iff_eq, and_assoc]
  · simp [get_population_data, List.mem_filter, Bool.and_eq_true,
      beq_iff_eq, and_assoc]
  · intro hall
    show male_df.filter _ = []
    rw [List.filter_eq_nil_iff]
    intro a ha
    have := List.all_eq_true.mp hall a ha
    simp at this ⊢
    tauto
  · intro hall
    show female_df.filter _ = []
    rw [List.filter_eq_nil_iff]
    intro a ha
    have := List.all_eq_true.mp hall a ha
    simp at this ⊢
    tauto
  · intro hcase
    rcases hcase with hm | hf
    · rw [hm]
      cases (get_population_data male_df female_df e y).2 with
      | nil => rfl
      | cons a l => rfl
    · rw [hf]
      cases (get_population_data male_df female_df e y).1 with
      | nil => rfl
      | cons a l => rfl

/-- C3: the is-projection flag of `get_median_data` and the header note
of `projection_info` are governed solely by the year-threshold comparison
`year > 2023`, independent of the table contents; in particular the flag
is false at 1950 and 2023 and true at 2024 and 2100. -/
theorem c3_projection_flag_year_threshold (df : List MedianRow) (y : Int) :
    (get_median_data df y).2 = decide (y > 2023) ∧
    (projection_info y = "Projektion" ↔ y > 2023) ∧
    (get_median_data df 1950).2 = false ∧
    (get_median_data df 2023).2 = false ∧
    (get_median_data df 2024).2 = true ∧
    (get_median_data df 2100).2 = true := by
  refine ⟨rfl, ?_, rfl, rfl, rfl, rfl⟩
  by_cases h : (2023 : Int) < y
  · simp [projection_info, h]
  · simp only [projection_info, if_neg h]
    constructor
    · intro hs
      exact absurd hs (by decide)
    · intro hy
      exact absurd hy h

/-- Helper: one tick never moves the position past the bound. -/
theorem animTick_pos_le (B : Int) (delay : ℚ) (s : AnimState)
    (h : s.pos ≤ B) : (animTick B delay s).1.pos ≤ B := by
  unfold animTick
  split_ifs with h1 h2
  · show s.pos + 1 ≤ B
    omega
  · show s.pos ≤ B
    exact h
  · show s.pos ≤ B
    exact h

/-- Helper: the position stays at or below the bound over any number of
ticks. -/
theorem runTicks_pos_le (B : Int) (delay : ℚ) :
    ∀ (n : ℕ) (s : AnimState), s.pos ≤ B →
      (runTicks B delay n s).pos ≤ B
  | 0, _, h => h
  | n + 1, s, h =>
    runTicks_pos_le B delay n (animTick B delay s).1
      (animTick_pos_le B delay s h)

/-- C4: on a tick taken while Playing with position `P` and bound `B`, a
position below the bound advances to `P + 1`, the loop stays Playing and
a next tick is scheduled after the configured delay; a position at or
above the bound flips the loop to Idle, resets the label to "Play",
schedules nothing and does not move — hence the position never exceeds
the bound.  The age loop runs at 0.05 seconds per tick and the median
loop at 0.25 seconds per tick against the fixed bound 2100. -/
theorem c4_animation_tick (B : Int) (delay : ℚ) (s : AnimState) (n : ℕ)
    (hplay : s.playing = true) :
    (s.pos < B →
      (animTick B delay s).1 = { s with pos := s.pos + 1 } ∧
      (animTick B delay s).1.playing = true ∧
      (animTick B delay s).2 = some delay) ∧
    (B ≤ s.pos →
      (animTick B delay s).1 = { s with playing := false, label := "Play" } ∧
      (animTick B delay s).1.pos = s.pos ∧
      (animTick B delay s).2 = none) ∧
    (s.pos ≤ B → (runTicks B delay n s).pos ≤ B) ∧
    animateAgeDistribution B s = animTick B (1 / 20) s ∧
    animateMedianAge s = animTick 2100 (1 / 4) s := by
  refine ⟨?_, ?_, fun h => runTicks_pos_le B delay n s h, rfl, rfl⟩
  · intro h
    refine ⟨?_, ?_, ?_⟩
    · simp [animTick, hplay, h]
    · simp [animTick, hplay, h, hplay]
    · simp [animTick, hplay, h]
  · intro h
    have h' : ¬s.pos < B := not_lt.mpr h
    refine ⟨?_, ?_, ?_⟩
    · simp [animTick, hplay, h']
    · simp [animTick, hplay, h']
    · simp [animTick, hplay, h']

/-- C4 witness: the tick theorem instantiated at the age loop bound 2023
and a Playing state at position 2020. -/
theorem c4_witness :
    ((2020 : Int) < 2023 →
      (animTick 2023 (1 / 20) demoAnim).1 = { demoAnim with pos := (2020 : Int) + 1 } ∧
      (animTick 2023 (1 / 20) demoAnim).1.playing = true ∧
      (animTick 2023 (1 / 20) demoAnim).2 = some (1 / 20)) ∧
    ((2023 : Int) ≤ 2020 →
      (animTick 2023 (1 / 20) demoAnim).1 =
        { demoAnim with playing := false, label := "Play" } ∧
      (animTick 2023 (1 / 20) demoAnim).1.pos = 2020 ∧
      (animTick 2023 (1 / 20) demoAnim).2 = none) ∧
    ((2020 : Int) ≤ 2023 → (runTicks 2023 (1 / 20) 5 demoAnim).pos ≤ 2023) ∧
    animateAgeDistribution 2023 demoAnim = animTick 2023 (1 / 20) demoAnim ∧
    animateMedianAge demoAnim = animTick 2100 (1 / 4) demoAnim :=
  c4_animation_tick 2023 (1 / 20) demoAnim 5 rfl

set_option maxRecDepth 8000 in
/-- C5 counterexample: starting the age animation Playing at 1950 with
bound 2023, the 73rd tick moves the position to 2023 but the loop is
still Playing — the flag does not flip to Idle until the 74th tick, so
the claim that the state is Idle after exactly 73 ticks is false. -/
theorem c5_counterexample_still_playing_after_73_ticks :
    (runTicks 2023 (1 / 20) 73 ageAnimStart).playing = true := by
  decide

set_option maxRecDepth 8000 in
/-- C5 amended: after exactly 73 ticks the position equals 2023 and the
loop is still Playing; the 74th tick flips the loop to Idle with label
"Play" without advancing; a 75th tick changes nothing. -/
theorem c5_amended_stop_on_tick_74 :
    (runTicks 2023 (1 / 20) 73 ageAnimStart).pos = 2023 ∧
    (runTicks 2023 (1 / 20) 74 ageAnimStart) =
      { playing := false, pos := 2023, label := "Play" } ∧
    runTicks 2023 (1 / 20) 75 ageAnimStart =
      runTicks 2023 (1 / 20) 74 ageAnimStart := by
  refine ⟨by decide, by decide, by decide⟩

end PopDash

namespace Pva

/-- C6: whenever the region filter leaves no state rows, `avg_growth`
renders the literal text "nan%" — the NaN mean of the empty subset is
formatted like a number instead of being surfaced as an explicit no-data
result. -/
theorem c6_avg_growth_empty_renders_nan (df : List StateRow)
    (regions : List String) (h : filterRegions df regions = []) :
    avg_growth df regions = "nan%" := by
  simp [avg_growth, h, pandasMean, formatPct]

/-- C6 witness: with no region checked the demo table filters to empty
and the value box shows "nan%". -/
theorem c6_witness :
    filterRegions demoStates [] = [] ∧
    avg_growth demoStates [] = "nan%" :=
  ⟨rfl, c6_avg_growth_empty_renders_nan demoStates [] rfl⟩

end Pva

namespace PopDash

/-- C7 counterexample: the shiny render (age_app_shiny.py) applies no
sort — it displays the brackets in the raw `male_age_groups` column
order.  With raw order 5_9, 0_4 its bar records appear as 5-9 then 0-4,
although the 0_4 bracket has the strictly smaller lower bound, so the
claim that every render of the age pyramid displays brackets in
ascending order of numeric lower bound is false. -/
theorem c7_counterexample_shiny_render_not_sorted :
    shinyBuildPyramidRecords ["5_9", "0_4"] demoMaleRow demoFemaleRow =
      [shinyPyramidRecord demoMaleRow demoFemaleRow "5_9",
       shinyPyramidRecord demoMaleRow demoFemaleRow "0_4"] ∧
    (shinyBuildPyramidRecords ["5_9", "0_4"] demoMaleRow demoFemaleRow).map
      ChartRecord.label = ["5-9", "0-4"] ∧
    bracketSortKey "0_4" < bracketSortKey "5_9" := by
  refine ⟨rfl, by decide, by decide⟩

/-- C7 amended: bracket identifiers map to display labels by `100plus`
becoming `100+` and `lower_upper` becoming `lower-upper` in both
renders; the age_app.py render displays the brackets in ascending order
of numeric lower bound with the `100plus` sentinel keyed as 100 — in
particular 0_4, 5_9, 100plus come out in exactly that order — while the
shiny render maps labels identically but keeps the raw
`male_age_groups` order without sorting. -/
theorem c7_bracket_labels_and_sort (groups : List String)
    (m f : PopRow) :
    ageLabel "100plus" = "100+" ∧
    ageLabel "0_4" = "0-4" ∧
    ageLabel "5_9" = "5-9" ∧
    ageLabel "95_99" = "95-99" ∧
    bracketSortKey "100plus" = 100 ∧
    bracketSortKey "0_4" = 0 ∧
    bracketSortKey "5_9" = 5 ∧
    bracketSortKey "95_99" = 95 ∧
    sortAgeGroups ["0_4", "5_9", "100plus"] = ["0_4", "5_9", "100plus"] ∧
    (sortAgeGroups groups).Sorted bracketLe ∧
    List.Perm (sortAgeGroups groups) groups ∧
    (buildPyramidRecords groups m f).map ChartRecord.label =
      (sortAgeGroups groups).map ageLabel ∧
    (shinyBuildPyramidRecords groups m f).map ChartRecord.label =
      groups.map ageLabel :=
  ⟨by decide, by decide, by decide, by decide, by decide, by decide,
   by decide, by decide, by decide,
   List.sorted_insertionSort bracketLe groups,
   List.perm_insertionSort bracketLe groups,
   by rw [buildPyramidRecords, List.map_map]; rfl,
   by rw [shinyBuildPyramidRecords, List.map_map]; rfl⟩

/-- C8: in a non-empty pyramid render each bar record carries the negated
male population in millions against the unnegated female population, the
negation is invertible — the absolute value of the male entry recovers
the original magnitude — and every x-axis tick label displays the
non-negative magnitude of its tick value. -/
theorem c8_pyramid_sign_flip_and_ticks (groups : List String)
    (m f : PopRow) (g : String) (rest rest2 : List PopRow) (t : Int)
    (hm : 0 ≤ getCol m (maleCol g)) (ht : 0 ≤ t) :
    (pyramidRecord m f g).male = -(getCol m (maleCol g) / 1000000) ∧
    (pyramidRecord m f g).female = getCol f (femaleCol g) / 1000000 ∧
    |(pyramidRecord m f g).male| = getCol m (maleCol g) / 1000000 ∧
    age_distribution_plot groups (m :: rest) (f :: rest2) =
      Figure.pyramid ((sortAgeGroups groups).map (pyramidRecord m f)) ∧
    tickLabel t = toString t.natAbs ∧
    ((t.natAbs : Int) = t) ∧
    (((-t).natAbs : Int) = t) := by
  refine ⟨rfl, rfl, ?_, rfl, rfl, Int.natAbs_of_nonneg ht, ?_⟩
  · show |(-(getCol m (maleCol g) / 1000000))| = _
    rw [abs_neg, abs_of_nonneg (div_nonneg hm (by norm_num))]
  · rw [Int.natAbs_neg]
    exact Int.natAbs_of_nonneg ht

/-- C8 witness: the mirroring theorem instantiated at the sample World
rows, the 0_4 bracket and the tick value 5. -/
theorem c8_witness :
    (pyramidRecord demoMaleRow demoFemaleRow "0_4").male =
      -(getCol demoMaleRow (maleCol "0_4") / 1000000) ∧
    (pyramidRecord demoMaleRow demoFemaleRow "0_4").female =
      getCol demoFemaleRow (femaleCol "0_4") / 1000000 ∧
    |(pyramidRecord demoMaleRow demoFemaleRow "0_4").male| =
      getCol demoMaleRow (maleCol "0_4") / 1000000 ∧
    age_distribution_plot ["0_4"] (demoMaleRow :: []) (demoFemaleRow :: []) =
      Figure.pyramid ((sortAgeGroups ["0_4"]).map
        (pyramidRecord demoMaleRow demoFemaleRow)) ∧
    tickLabel 5 = toString (5 : Int).natAbs ∧
    (((5 : Int).natAbs : Int) = 5) ∧
    (((-(5 : Int)).natAbs : Int) = 5) :=
  c8_pyramid_sign_flip_and_ticks ["0_4"] demoMaleRow demoFemaleRow "0_4"
    [] [] 5 (by decide) (by decide)

/-- C9: no reactive recomputation mutates the Dataset Store — the
store-threaded filter, derived-metric and render steps all hand back the
store they were given, and their results agree with the pure
definitions. -/
theorem c9_store_never_mutated (s : Store) (e : String) (y ym : Int)
    (groups : List String) :
    (get_population_data_st s e y).2 = s ∧
    (get_median_data_st s ym).2 = s ∧
    (age_distribution_render_st s groups e y).2 = s ∧
    (get_median_data_st s ym).1 = get_median_data s.median_df ym ∧
    (get_population_data_st s e y).1 =
      get_population_data s.male_popl_by_age_df s.female_popl_by_age_df e y :=
  ⟨rfl, rfl, rfl, rfl, rfl⟩

end PopDash

namespace Pva

/-- C10: the plotted rows of the state-growth dashboard all lie in the
selected regions, number at most `top_n` (exactly `min top_n` of the
match count), and dominate the growth of every matching row left out —
the left-out rows being the drop of the descending sort, which together
with the plotted rows is a permutation of the full region match. -/
theorem c10_population_widget_top_n (df : List StateRow)
    (regions : List String) (n : ℕ) (r s : StateRow)
    (hr : r ∈ population_widget_rows df regions n)
    (hs : s ∈ (List.insertionSort descGrowth (filterRegions df regions)).drop n) :
    r.region_name ∈ regions ∧
    (population_widget_rows df regions n).length =
      min n (filterRegions df regions).length ∧
    s.change_2010_2019 ≤ r.change_2010_2019 ∧
    s ∈ filterRegions df regions ∧
    List.Perm
      (population_widget_rows df regions n ++
        (List.insertionSort descGrowth (filterRegions df regions)).drop n)
      (filterRegions df regions) := by
  have hr0 : r ∈ (List.insertionSort descGrowth (filterRegions df regions)).take n :=
    hr
  have hperm : List.Perm
      (List.insertionSort descGrowth (filterRegions df regions))
      (filterRegions df regions) :=
    List.perm_insertionSort descGrowth (filterRegions df regions)
  have hrsorted : r ∈ List.insertionSort descGrowth (filterRegions df regions) := by
    rw [← List.take_append_drop n
      (List.insertionSort descGrowth (filterRegions df regions))]
    exact List.mem_append_left _ hr0
  have hssorted : s ∈ List.insertionSort descGrowth (filterRegions df regions) := by
    rw [← List.take_append_drop n
      (List.insertionSort descGrowth (filterRegions df regions))]
    exact List.mem_append_right _ hs
  have hrfil : r ∈ filterRegions df regions := hperm.subset hrsorted
  have hsfil : s ∈ filterRegions df regions := hperm.subset hssorted
  have hpw : List.Pairwise descGrowth
      ((List.insertionSort descGrowth (filterRegions df regions)).take n ++
        (List.insertionSort descGrowth (filterRegions df regions)).drop n) := by
    rw [List.take_append_drop]
    exact List.sorted_insertionSort descGrowth (filterRegions df regions)
  refine ⟨?_, ?_, ?_, hsfil, ?_⟩
  · have := (List.mem_filter.mp hrfil).2
    simpa using this
  · show ((List.insertionSort descGrowth (filterRegions df regions)).take n).length = _
    rw [List.length_take, hperm.length_eq]
  · exact (List.pairwise_append.mp hpw).2.2 r hr0 s hs
  · show List.Perm
      ((List.insertionSort descGrowth (filterRegions df regions)).take n ++
        (List.insertionSort descGrowth (filterRegions df regions)).drop n) _
    rw [List.take_append_drop]
    exact hperm

/-- C10 witness: with all demo regions selected and `top_n = 1`, Utah is
plotted, Texas is left out, and the theorem's conclusions hold. -/
theorem c10_witness :
    demoUtah.region_name ∈ demoRegions ∧
    (population_widget_rows demoStates demoRegions 1).length =
      min 1 (filterRegions demoStates demoRegions).length ∧
    demoTexas.change_2010_2019 ≤ demoUtah.change_2010_2019 ∧
    demoTexas ∈ filterRegions demoStates demoRegions ∧
    List.Perm
      (population_widget_rows demoStates demoRegions 1 ++
        (List.insertionSort descGrowth
          (filterRegions demoStates demoRegions)).drop 1)
      (filterRegions demoStates demoRegions) :=
  c10_population_widget_top_n demoStates demoRegions 1 demoUtah demoTexas
    (by decide) (by decide)

end Pva
